import Mathlib

/-!
Verification of the `passlock` package of saylorsolutions/gocryptx.

The MultiLocker protocol, the KeyGenerator and the Lock/Unlock primitive are
embedded from `pkg/passlock/multilocker.go`, `pkg/passlock/locker.go` and the
keygen source file shallowly into Lean:

* Byte slices become `List Nat` (each entry a byte value; arithmetic is kept
  under `% 256` where bytes are produced).
* The two external collaborators that the spec places out of scope — the
  AES-GCM AEAD (`crypto/cipher` GCM over `crypto/aes`) and the scrypt
  key-stretching function (`golang.org/x/crypto/scrypt`) — are modelled by
  executable ideal functions (`gcmSeal`/`gcmOpen`/`scryptKey`) that satisfy
  exactly the contract the spec assigns them: deterministic derivation,
  authenticated seal/open round-trip, tag verification on open.  The byte
  LAYOUT handled by the repository's own code (nonce length 12, 16-byte tag
  appended by Seal, salt appended after the ciphertext, trailing-salt
  extraction, all length checks and slice arithmetic) is taken from the
  source, not idealized.
* `crypto/rand` draws are embedded as explicit entropy functions
  (`Nat → Nat`): each operation that draws random bytes in Go takes the
  entropy for that draw as an argument, and theorems quantify over it.
* Go's error returns become `Except PLErr`; a Go runtime panic (slice bounds
  out of range) is a distinguished outcome `PLErr.sliceOutOfRange` which
  callers propagate unmapped, since a panic bypasses Go's error handling.
* Go methods that mutate the receiver return the new state in `.ok`; every
  mutating method in the source assigns its fields only after the last
  error return, so an `.error` result corresponds to the Go method leaving
  the receiver untouched.  (`InvalidateLock` is the one exception: Go nils
  the payload when the inner `Lock` fails, a branch reachable only on
  key-size or random-source failure; no claim touches it.)
-/

/-- Decidable equality for `Except`, so concrete runs of the embedded
operations can be compared by evaluation. -/
instance {ε α : Type} [DecidableEq ε] [DecidableEq α] :
    DecidableEq (Except ε α) := fun a b =>
  match a, b with
  | .ok x, .ok y => decidable_of_iff (x = y) (by simp)
  | .ok _, .error _ => .isFalse (by simp)
  | .error _, .ok _ => .isFalse (by simp)
  | .error e, .error f => decidable_of_iff (e = f) (by simp)

namespace Passlock

/-! ### Idealized external collaborators (out of scope per the spec) -/

/-- Mixing step for the executable model hash; the square term keeps the
mix nonlinear and the prime modulus keeps residues mod 256 unstructured. -/
def mixStep (a b : Nat) : Nat := (a * a * 3 + a * 131 + b * 251 + 7) % 65537

/-- Fold a byte list into the model hash state. -/
def hashList (seed : Nat) (xs : List Nat) : Nat := xs.foldl mixStep seed

/-- Drawing `n` bytes from a `crypto/rand` style entropy source `rho`. -/
def draw (n : Nat) (rho : Nat → Nat) : List Nat :=
  (List.range n).map fun i => rho i % 256

/-- Model of the scrypt key-stretching collaborator: a deterministic
function of passphrase, salt and cost parameters producing `keyLen` bytes.
(Parameter validation inside scrypt itself is not modelled; all flows in the
claims use parameter sets scrypt accepts.) -/
def scryptKey (pass salt : List Nat) (n r p keyLen : Nat) : List Nat :=
  (List.range keyLen).map fun i =>
    hashList (hashList (i * 37 + n * 3 + r * 5 + p * 7 + 11) pass) salt % 256

/-- Length in bytes of a GCM authentication tag. -/
def tagSize : Nat := 16

/-- Standard GCM nonce size used by `cipher.NewGCM`. -/
def nonceSize : Nat := 12

/-- Model of the GCM authentication tag over key, nonce and message. -/
def gcmTag (key nonce ct : List Nat) : List Nat :=
  (List.range tagSize).map fun i =>
    hashList (hashList (hashList (i * 31 + 5) key) nonce) ct % 256

/-- Model of `gcm.Seal` (without the nonce prefixing done by the caller):
ciphertext is the message followed by its authentication tag. -/
def gcmSeal (key nonce m : List Nat) : List Nat := m ++ gcmTag key nonce m

/-- Model of `gcm.Open`: split off the trailing tag, verify it, return the
message; `none` is the authentication error. -/
def gcmOpen (key nonce data : List Nat) : Option (List Nat) :=
  if data.length < tagSize then none
  else
    let ct := data.take (data.length - tagSize)
    if data.drop (data.length - tagSize) = gcmTag key nonce ct then some ct
    else none

/-- Key lengths accepted by `aes.NewCipher`. -/
def aesKeyLenOk (n : Nat) : Bool := n == 16 || n == 24 || n == 32

/-! ### Errors

One constructor per distinct error kind surfaced by the sources.
`sliceOutOfRange` stands for a Go runtime panic caused by a slice
expression with out-of-range bounds; it is not a returned error in Go, so
the embedded callers propagate it instead of mapping it like the returned
errors they inspect. -/

inductive PLErr where
  | emptyPassphrase
  | invalidData
  | invalidPassword
  | invalidKeySize
  | authFailed
  | noGenerator
  | noPayload
  | updateDisabled
  | idLength
  | idExists
  | idNotFound
  | badIterations
  | badCpuCost
  | badBlockSize
  | sliceOutOfRange
  deriving DecidableEq, BEq, Repr

/-! ### KeyGenerator (keygen source file) -/

def DefaultLargeIterations : Nat := 2 ^ 30
def DefaultInteractiveIterations : Nat := 2 ^ 17
def DefaultRelBlockSize : Nat := 8
def DefaultCpuCost : Nat := 1
def AES256KeySize : Nat := 256 / 8
def AES128KeySize : Nat := 128 / 8

structure KeyGenerator where
  iterations : Nat
  relativeBlockSize : Nat
  cpuCost : Nat
  aesKeySize : Nat
  deriving DecidableEq, BEq, Repr

def GeneratorOpt := KeyGenerator → Except PLErr KeyGenerator

def SetAES256KeySize : GeneratorOpt := fun gen =>
  .ok { gen with aesKeySize := AES256KeySize }

def SetAES128KeySize : GeneratorOpt := fun gen =>
  .ok { gen with aesKeySize := AES128KeySize }

def SetLongDelayIterations : GeneratorOpt := fun gen =>
  .ok { gen with iterations := DefaultLargeIterations }

def SetShortDelayIterations : GeneratorOpt := fun gen =>
  .ok { gen with iterations := DefaultInteractiveIterations }

/-- Embeds `SetIterations`.  The Go source checks `iterations <= 1` and then
`iterations%2 != 0` (its error string reads "iterations must be a power of
2", but the check performed is only evenness). -/
def SetIterations (iterations : Nat) : GeneratorOpt := fun gen =>
  if iterations ≤ 1 then .error .badIterations
  else if iterations % 2 ≠ 0 then .error .badIterations
  else .ok { gen with iterations := iterations }

def SetCPUCost (cost : Nat) : GeneratorOpt := fun gen =>
  if cost < DefaultCpuCost then .error .badCpuCost
  else .ok { gen with cpuCost := cost }

def SetRelativeBlockSize (size : Nat) : GeneratorOpt := fun gen =>
  if size < DefaultRelBlockSize then .error .badBlockSize
  else .ok { gen with relativeBlockSize := size }

/-- Default generator record built by `NewKeyGenerator` before options run. -/
def defaultGenerator : KeyGenerator :=
  { iterations := DefaultLargeIterations
    relativeBlockSize := DefaultRelBlockSize
    cpuCost := DefaultCpuCost
    aesKeySize := AES256KeySize }

/-- Embeds `NewKeyGenerator`: fold the option list over the default record,
stopping at the first failing option. -/
def NewKeyGenerator (opts : List GeneratorOpt) : Except PLErr KeyGenerator :=
  opts.foldl (fun acc opt => acc.bind opt) (.ok defaultGenerator)

/-- Embeds `KeyGenerator.GenerateKey`: empty-passphrase check, random salt
of `aesKeySize` bytes, scrypt derivation. -/
def KeyGenerator.GenerateKey (g : KeyGenerator) (pass : List Nat)
    (rhoSalt : Nat → Nat) : Except PLErr (List Nat × List Nat) :=
  if pass.length = 0 then .error .emptyPassphrase
  else
    let salt := draw g.aesKeySize rhoSalt
    .ok (scryptKey pass salt g.iterations g.relativeBlockSize g.cpuCost
          g.aesKeySize, salt)

/-- Embeds `KeyGenerator.DeriveKeySalt`: empty-passphrase check, length
check `len(data) <= aesKeySize` yielding `ErrInvalidData`, then trailing
`aesKeySize` bytes are the salt and the key is re-derived from it. -/
def KeyGenerator.DeriveKeySalt (g : KeyGenerator) (pass data : List Nat) :
    Except PLErr (List Nat × List Nat) :=
  if pass.length = 0 then .error .emptyPassphrase
  else if data.length ≤ g.aesKeySize then .error .invalidData
  else
    let salt := data.drop (data.length - g.aesKeySize)
    .ok (scryptKey pass salt g.iterations g.relativeBlockSize g.cpuCost
          g.aesKeySize, salt)

/-- Embeds `KeyGenerator.DeriveKey` (drops the salt component). -/
def KeyGenerator.DeriveKey (g : KeyGenerator) (pass data : List Nat) :
    Except PLErr (List Nat) :=
  (g.DeriveKeySalt pass data).map Prod.fst

/-- Embeds `KeyGenerator.DeriveSalt`. -/
def KeyGenerator.DeriveSalt (g : KeyGenerator) (data : List Nat) :
    Except PLErr (List Nat) :=
  if data.length ≤ g.aesKeySize then .error .invalidData
  else .ok (data.drop (data.length - g.aesKeySize))

/-! ### Lock / Unlock primitive (`locker.go`) -/

/-- Embeds the package-level `Lock`: reject bad key sizes
(`aes.NewCipher`), draw a fresh nonce, produce
`nonce ++ Seal(nonce, data) ++ salt` (Go appends the seal output to the
nonce and then appends the salt). -/
def Lock (key salt data : List Nat) (rhoNonce : Nat → Nat) :
    Except PLErr (List Nat) :=
  if aesKeyLenOk key.length then
    let nonce := draw nonceSize rhoNonce
    .ok (nonce ++ gcmSeal key nonce data ++ salt)
  else .error .invalidKeySize

/-- Embeds the package-level `Unlock`: reject bad key sizes, split
`data[:nonceSize]` and `data[nonceSize:]`, strip `len(key)` trailing salt
bytes, and open.  The two Go slice expressions panic when the buffer is
shorter than the nonce or than nonce+key; those runtime panics are the
`sliceOutOfRange` outcomes. -/
def Unlock (key data : List Nat) : Except PLErr (List Nat) :=
  if aesKeyLenOk key.length then
    if data.length < nonceSize then .error .sliceOutOfRange
    else
      let nonce := data.take nonceSize
      let rest := data.drop nonceSize
      if rest.length < key.length then .error .sliceOutOfRange
      else
        match gcmOpen key nonce (rest.take (rest.length - key.length)) with
        | some m => .ok m
        | none => .error .authFailed
  else .error .invalidKeySize

/-! ### MultiLocker (`multilocker.go`) -/

def idFieldLen : Nat := 32

/-- Embeds the `MultiLocker` struct.  The Go map `surKeys` from id to
`surrogateKey{encryptedPass}` becomes an association list with unique keys
(every insertion point first checks the id is absent); `basePass = []`
plays the role of the nil passphrase, and `keyGen` is the possibly-nil
generator pointer. -/
structure MultiLocker where
  surKeys : List (String × List Nat)
  payload : List Nat
  basePass : List Nat
  keyGen : Option KeyGenerator
  deriving DecidableEq, BEq, Repr

def NewMultiLocker (gen : KeyGenerator) : MultiLocker :=
  { surKeys := [], payload := [], basePass := [], keyGen := some gen }

/-- Embeds `validateHasGenerator`; returns the generator on success so
callers do not re-match the option. -/
def MultiLocker.validateHasGenerator (l : MultiLocker) :
    Except PLErr KeyGenerator :=
  match l.keyGen with
  | none => .error .noGenerator
  | some g => .ok g

/-- Embeds `validateInitialized`: payload must be non-empty, then the
generator check. -/
def MultiLocker.validateInitialized (l : MultiLocker) :
    Except PLErr KeyGenerator :=
  if l.payload.length = 0 then .error .noPayload
  else l.validateHasGenerator

/-- Embeds `validateForUpdate`: initialized, and the cached base
passphrase must be populated (update mode enabled). -/
def MultiLocker.validateForUpdate (l : MultiLocker) :
    Except PLErr KeyGenerator :=
  match l.validateInitialized with
  | .error e => .error e
  | .ok g => if l.basePass.length = 0 then .error .updateDisabled else .ok g

/-- Embeds `EnableUpdate`: derive a key from the payload's embedded salt,
check it opens the payload (any returned error becomes
`ErrInvalidPassword`), then cache the passphrase. -/
def MultiLocker.EnableUpdate (l : MultiLocker) (pass : List Nat) :
    Except PLErr MultiLocker :=
  match l.validateInitialized with
  | .error e => .error e
  | .ok g =>
    match g.DeriveKey pass l.payload with
    | .error e => .error e
    | .ok derivedKey =>
      match Passlock.Unlock derivedKey l.payload with
      | .error .sliceOutOfRange => .error .sliceOutOfRange
      | .error _ => .error .invalidPassword
      | .ok _ => .ok { l with basePass := pass }

/-- Embeds `DisableUpdate`: clears the cached base passphrase. -/
def MultiLocker.DisableUpdate (l : MultiLocker) : MultiLocker :=
  { l with basePass := [] }

/-- Insert into a sorted string list; helper for `ListKeyIDs`. -/
def insertSorted (s : String) : List String → List String
  | [] => [s]
  | t :: ts => if s < t then s :: t :: ts else t :: insertSorted s ts

/-- Embeds `ListKeyIDs`: collect the map's keys and sort them
(`sort.Strings`). -/
def MultiLocker.ListKeyIDs (l : MultiLocker) : List String :=
  (l.surKeys.map Prod.fst).foldr insertSorted []

/-- Embeds `AddSurrogatePass`: id length in 1..32, id must be absent,
update must be enabled; then a fresh key+salt is generated from the
surrogate passphrase and the cached base passphrase is wrapped under it
and stored for the id. -/
def MultiLocker.AddSurrogatePass (l : MultiLocker) (id : String)
    (pass : List Nat) (rhoSalt rhoNonce : Nat → Nat) :
    Except PLErr MultiLocker :=
  if idFieldLen < id.utf8ByteSize ∨ id.utf8ByteSize = 0 then .error .idLength
  else if (l.surKeys.lookup id).isSome then .error .idExists
  else
    match l.validateForUpdate with
    | .error e => .error e
    | .ok g =>
      match g.GenerateKey pass rhoSalt with
      | .error e => .error e
      | .ok (newPassKey, salt) =>
        match Passlock.Lock newPassKey salt l.basePass rhoNonce with
        | .error e => .error e
        | .ok encryptedPass =>
          .ok { l with surKeys := l.surKeys ++ [(id, encryptedPass)] }

/-- Embeds `RemoveSurrogatePass`: update must be enabled; removing an
absent id is a no-op success. -/
def MultiLocker.RemoveSurrogatePass (l : MultiLocker) (id : String) :
    Except PLErr MultiLocker :=
  match l.validateForUpdate with
  | .error e => .error e
  | .ok _ =>
    if (l.surKeys.lookup id).isNone then .ok l
    else .ok { l with surKeys := l.surKeys.filter (fun kv => !(kv.1 == id)) }

/-- Embeds `UpdateSurrogatePass`.  The Go source reads
`sur, ok := l.surKeys[id]` — a COPY of the map value — and after wrapping
the cached base passphrase under the new key assigns
`sur.encryptedPass = encryptedPass`, which writes the local copy only; the
map entry is never replaced, so the method returns success with the
MultiLocker unchanged. -/
def MultiLocker.UpdateSurrogatePass (l : MultiLocker) (id : String)
    (newPass : List Nat) (rhoSalt rhoNonce : Nat → Nat) :
    Except PLErr MultiLocker :=
  if idFieldLen < id.utf8ByteSize then .error .idLength
  else
    match l.surKeys.lookup id with
    | none => .error .idNotFound
    | some _ =>
      match l.validateForUpdate with
      | .error e => .error e
      | .ok g =>
        match g.GenerateKey newPass rhoSalt with
        | .error e => .error e
        | .ok (newPassKey, salt) =>
          match Passlock.Lock newPassKey salt l.basePass rhoNonce with
          | .error e => .error e
          | .ok _encryptedPass => .ok l

/-- Embeds `InvalidateLock`: requires only a generator; generates a
brand-new key+salt (ignoring any existing payload), encrypts the new
plaintext, and resets the surrogate-key map to empty. -/
def MultiLocker.InvalidateLock (l : MultiLocker) (pass unencrypted : List Nat)
    (rhoSalt rhoNonce : Nat → Nat) : Except PLErr MultiLocker :=
  match l.validateHasGenerator with
  | .error e => .error e
  | .ok g =>
    match g.GenerateKey pass rhoSalt with
    | .error e => .error e
    | .ok (key, salt) =>
      match Passlock.Lock key salt unencrypted rhoNonce with
      | .error e => .error e
      | .ok encrypted => .ok { l with payload := encrypted, surKeys := [] }

/-- Embeds `MultiLocker.Lock`.  When surrogate keys or a payload are
present, the passphrase is first verified: the key is re-derived from the
payload's embedded salt (`DeriveKeySalt`) and must open the current
payload, any returned failure becoming `ErrInvalidPassword` (a slicing
panic propagates).  After the check, a FRESH key and salt are generated
from the passphrase (`GenerateKey`), the plaintext is sealed under them,
and the payload and cached base passphrase are replaced.  All field
assignments in the Go method come after its last error return. -/
def MultiLocker.Lock (l : MultiLocker) (basePass unencrypted : List Nat)
    (rhoSalt rhoNonce : Nat → Nat) : Except PLErr MultiLocker :=
  match l.validateHasGenerator with
  | .error e => .error e
  | .ok g =>
    let check : Except PLErr Unit :=
      if 0 < l.surKeys.length ∨ 0 < l.payload.length then
        match g.DeriveKeySalt basePass l.payload with
        | .error e => .error e
        | .ok (key, _) =>
          match Passlock.Unlock key l.payload with
          | .error .sliceOutOfRange => .error .sliceOutOfRange
          | .error _ => .error .invalidPassword
          | .ok _ => .ok ()
      else .ok ()
    match check with
    | .error e => .error e
    | .ok _ =>
      match g.GenerateKey basePass rhoSalt with
      | .error e => .error e
      | .ok (key, salt) =>
        match Passlock.Lock key salt unencrypted rhoNonce with
        | .error e => .error e
        | .ok encrypted =>
          .ok { l with payload := encrypted, basePass := basePass }

/-- Embeds `MultiLocker.Unlock`: derive the base key from the payload's
embedded salt (any derivation error is surfaced as `ErrInvalidPassword`)
and open the payload (returned failures become `ErrInvalidPassword`,
panics propagate). -/
def MultiLocker.Unlock (l : MultiLocker) (basePass : List Nat) :
    Except PLErr (List Nat) :=
  match l.validateInitialized with
  | .error e => .error e
  | .ok g =>
    match g.DeriveKey basePass l.payload with
    | .error _ => .error .invalidPassword
    | .ok baseKey =>
      match Passlock.Unlock baseKey l.payload with
      | .error .sliceOutOfRange => .error .sliceOutOfRange
      | .error _ => .error .invalidPassword
      | .ok data => .ok data

/-- Embeds `SurrogateUnlock`: find the surrogate entry (`idNotFound` is its
own error), derive the surrogate key from the entry's embedded salt
(derivation errors returned as-is), unwrap the base passphrase (failure is
`ErrInvalidPassword`), then derive the base key from the payload's salt and
open the payload. -/
def MultiLocker.SurrogateUnlock (l : MultiLocker) (id : String)
    (pass : List Nat) : Except PLErr (List Nat) :=
  match l.validateInitialized with
  | .error e => .error e
  | .ok g =>
    match l.surKeys.lookup id with
    | none => .error .idNotFound
    | some encryptedPass =>
      match g.DeriveKey pass encryptedPass with
      | .error e => .error e
      | .ok passKey =>
        match Passlock.Unlock passKey encryptedPass with
        | .error .sliceOutOfRange => .error .sliceOutOfRange
        | .error _ => .error .invalidPassword
        | .ok basePass =>
          match g.DeriveKey basePass l.payload with
          | .error e => .error e
          | .ok baseKey =>
            match Passlock.Unlock baseKey l.payload with
            | .error .sliceOutOfRange => .error .sliceOutOfRange
            | .error _ => .error .invalidPassword
            | .ok data => .ok data

/-! ### Abbreviations used by theorem statements -/

/-- The salt drawn by `GenerateKey` under entropy `rhoSalt`. -/
def genSalt (g : KeyGenerator) (rhoSalt : Nat → Nat) : List Nat :=
  draw g.aesKeySize rhoSalt

/-- The key `GenerateKey` derives under entropy `rhoSalt`. -/
def genKey (g : KeyGenerator) (pass : List Nat) (rhoSalt : Nat → Nat) :
    List Nat :=
  scryptKey pass (genSalt g rhoSalt) g.iterations g.relativeBlockSize
    g.cpuCost g.aesKeySize

/-- The encrypted blob produced by generating a key from `pass` and sealing
`m` under it: `nonce ++ Seal(m) ++ salt`. -/
def sealedBlob (g : KeyGenerator) (pass m : List Nat)
    (rhoSalt rhoNonce : Nat → Nat) : List Nat :=
  draw nonceSize rhoNonce ++
    gcmSeal (genKey g pass rhoSalt) (draw nonceSize rhoNonce) m ++
    genSalt g rhoSalt

/-- The trailing `n` bytes of a list (where a payload keeps its salt). -/
def trailingBytes (n : Nat) (xs : List Nat) : List Nat :=
  xs.drop (xs.length - n)

/-- Iteration-count invariant as the spec words it: greater than 1 and a
power of two.  (Spec-side definition, used to compare `SetIterations`'s
actual check against the spec's invariant.) -/
def specIterationsOk (n : Nat) : Bool :=
  decide (1 < n) && (n &&& (n - 1) == 0)

/-! ### Basic length and round-trip lemmas -/

theorem draw_length (n : Nat) (rho : Nat → Nat) : (draw n rho).length = n := by
  simp [draw]

theorem scryptKey_length (pass salt : List Nat) (n r p keyLen : Nat) :
    (scryptKey pass salt n r p keyLen).length = keyLen := by
  simp [scryptKey]

theorem gcmTag_length (key nonce ct : List Nat) :
    (gcmTag key nonce ct).length = tagSize := by
  simp [gcmTag]

theorem gcmSeal_length (key nonce m : List Nat) :
    (gcmSeal key nonce m).length = m.length + tagSize := by
  simp [gcmSeal, gcmTag_length]

theorem genKey_length (g : KeyGenerator) (pass : List Nat)
    (rhoSalt : Nat → Nat) : (genKey g pass rhoSalt).length = g.aesKeySize :=
  scryptKey_length ..

theorem genSalt_length (g : KeyGenerator) (rhoSalt : Nat → Nat) :
    (genSalt g rhoSalt).length = g.aesKeySize :=
  draw_length ..

/-- Opening a sealed box with the sealing key recovers the message. -/
theorem gcmOpen_gcmSeal (key nonce m : List Nat) :
    gcmOpen key nonce (gcmSeal key nonce m) = some m := by
  have hlen : (gcmSeal key nonce m).length = m.length + tagSize :=
    gcmSeal_length key nonce m
  have hsub : (gcmSeal key nonce m).length - tagSize = m.length := by
    rw [hlen, Nat.add_sub_cancel]
  have htake : (gcmSeal key nonce m).take m.length = m :=
    List.take_left m (gcmTag key nonce m)
  have hdrop : (gcmSeal key nonce m).drop m.length = gcmTag key nonce m :=
    List.drop_left m (gcmTag key nonce m)
  have hnotlt : ¬ (gcmSeal key nonce m).length < tagSize := by
    rw [hlen]; omega
  simp [gcmOpen, hsub, htake, hdrop, hnotlt]

/-- Unlock recovers the plaintext from a well-formed encrypted blob
`nonce ++ Seal(m) ++ salt` sealed under the same key, provided the salt
length matches the key length (the invariant `KeyGenerator` maintains). -/
theorem Unlock_wellFormed (key nonce salt m : List Nat)
    (hk : aesKeyLenOk key.length = true) (hn : nonce.length = nonceSize)
    (hs : salt.length = key.length) :
    Passlock.Unlock key (nonce ++ gcmSeal key nonce m ++ salt) = .ok m := by
  set data := nonce ++ gcmSeal key nonce m ++ salt with hdata
  have hassoc : data = nonce ++ (gcmSeal key nonce m ++ salt) := by
    rw [hdata, List.append_assoc]
  have hdlen : data.length = nonceSize + (m.length + tagSize + key.length) := by
    rw [hassoc]
    simp [gcmSeal_length, hn, hs]
  have hnotlt1 : ¬ data.length < nonceSize := by omega
  have htake : data.take nonceSize = nonce := by
    rw [hassoc, ← hn]
    exact List.take_left nonce _
  have hdrop : data.drop nonceSize = gcmSeal key nonce m ++ salt := by
    rw [hassoc, ← hn]
    exact List.drop_left nonce _
  have hrestlen : (gcmSeal key nonce m ++ salt).length
      = m.length + tagSize + key.length := by
    simp [gcmSeal_length, hs]
  have hnotlt2 : ¬ (gcmSeal key nonce m ++ salt).length < key.length := by
    rw [hrestlen]; omega
  have hsub : (gcmSeal key nonce m ++ salt).length - key.length
      = (gcmSeal key nonce m).length := by
    rw [hrestlen, gcmSeal_length]; omega
  have htake2 : (gcmSeal key nonce m ++ salt).take
      ((gcmSeal key nonce m ++ salt).length - key.length)
      = gcmSeal key nonce m := by
    rw [hsub]; exact List.take_left _ _
  simp only [Passlock.Unlock, hk, if_pos, if_neg hnotlt1, htake, hdrop,
    if_neg hnotlt2, htake2, gcmOpen_gcmSeal, if_true]

/-- A sealed blob produced from a passphrase opens under the key derived
from the same passphrase and the blob's salt. -/
theorem Unlock_sealedBlob (g : KeyGenerator) (pass m : List Nat)
    (rhoSalt rhoNonce : Nat → Nat) (hA : aesKeyLenOk g.aesKeySize = true) :
    Passlock.Unlock (genKey g pass rhoSalt)
      (sealedBlob g pass m rhoSalt rhoNonce) = .ok m := by
  have hk : aesKeyLenOk (genKey g pass rhoSalt).length = true := by
    rw [genKey_length]; exact hA
  have hs : (genSalt g rhoSalt).length = (genKey g pass rhoSalt).length := by
    rw [genSalt_length, genKey_length]
  exact Unlock_wellFormed _ _ _ _ hk (draw_length ..) hs

theorem sealedBlob_length (g : KeyGenerator) (pass m : List Nat)
    (rhoSalt rhoNonce : Nat → Nat) :
    (sealedBlob g pass m rhoSalt rhoNonce).length
      = nonceSize + (m.length + tagSize) + g.aesKeySize := by
  simp [sealedBlob, gcmSeal_length, genSalt_length, draw_length]; omega

theorem sealedBlob_ne_nil (g : KeyGenerator) (pass m : List Nat)
    (rhoSalt rhoNonce : Nat → Nat) :
    sealedBlob g pass m rhoSalt rhoNonce ≠ [] := by
  intro h
  have := sealedBlob_length g pass m rhoSalt rhoNonce
  rw [h] at this
  simp [nonceSize] at this
  omega

/-- The trailing `aesKeySize` bytes of a sealed blob are exactly the salt
that was drawn when the key was generated. -/
theorem sealedBlob_trailing (g : KeyGenerator) (pass m : List Nat)
    (rhoSalt rhoNonce : Nat → Nat) :
    trailingBytes g.aesKeySize (sealedBlob g pass m rhoSalt rhoNonce)
      = genSalt g rhoSalt := by
  have hassoc : sealedBlob g pass m rhoSalt rhoNonce
      = (draw nonceSize rhoNonce ++
          gcmSeal (genKey g pass rhoSalt) (draw nonceSize rhoNonce) m) ++
          genSalt g rhoSalt := by
    simp [sealedBlob]
  have hsub : (sealedBlob g pass m rhoSalt rhoNonce).length - g.aesKeySize
      = (draw nonceSize rhoNonce ++
          gcmSeal (genKey g pass rhoSalt) (draw nonceSize rhoNonce) m).length := by
    rw [sealedBlob_length]
    simp [gcmSeal_length, draw_length]
  rw [trailingBytes, hsub, hassoc]
  exact List.drop_left _ _

/-! ### Behaviour of the generator operations on well-formed inputs -/

theorem GenerateKey_ok (g : KeyGenerator) (pass : List Nat)
    (rhoSalt : Nat → Nat) (hp : pass ≠ []) :
    g.GenerateKey pass rhoSalt = .ok (genKey g pass rhoSalt, genSalt g rhoSalt) := by
  simp [KeyGenerator.GenerateKey, genKey, genSalt, List.length_eq_zero, hp]

/-- Key/salt recovery from a blob of the shape `body ++ salt` with a salt of
the generator's key size. -/
theorem DeriveKeySalt_append (g : KeyGenerator) (pass x salt : List Nat)
    (hp : pass ≠ []) (hx : x ≠ []) (hs : salt.length = g.aesKeySize) :
    g.DeriveKeySalt pass (x ++ salt) =
      .ok (scryptKey pass salt g.iterations g.relativeBlockSize g.cpuCost
            g.aesKeySize, salt) := by
  have h0 : ¬ pass.length = 0 := by
    simpa [List.length_eq_zero] using hp
  have hxpos : 0 < x.length := List.length_pos.mpr hx
  have hgt : ¬ (x.length + salt.length ≤ g.aesKeySize) := by
    rw [hs]; omega
  have hsub : x.length + salt.length - g.aesKeySize = x.length := by
    rw [hs]; omega
  have hdrop : (x ++ salt).drop (x.length + salt.length - g.aesKeySize) = salt := by
    rw [hsub]; exact List.drop_left x salt
  simp [KeyGenerator.DeriveKeySalt, h0, hgt, hdrop]

/-- Deriving from a sealed blob with any (non-empty) passphrase yields the
key stretched from that passphrase and the blob's embedded salt. -/
theorem DeriveKeySalt_sealedBlob (g : KeyGenerator) (pass2 pass m : List Nat)
    (rhoSalt rhoNonce : Nat → Nat) (hp : pass2 ≠ []) :
    g.DeriveKeySalt pass2 (sealedBlob g pass m rhoSalt rhoNonce) =
      .ok (genKey g pass2 rhoSalt, genSalt g rhoSalt) := by
  have hx : draw nonceSize rhoNonce ++
      gcmSeal (genKey g pass rhoSalt) (draw nonceSize rhoNonce) m ≠ [] := by
    intro h
    have : (draw nonceSize rhoNonce ++
        gcmSeal (genKey g pass rhoSalt) (draw nonceSize rhoNonce) m).length = 0 := by
      rw [h]; rfl
    simp [draw_length, gcmSeal_length, nonceSize] at this
  have := DeriveKeySalt_append g pass2
    (draw nonceSize rhoNonce ++
      gcmSeal (genKey g pass rhoSalt) (draw nonceSize rhoNonce) m)
    (genSalt g rhoSalt) hp hx (genSalt_length g rhoSalt)
  rw [sealedBlob, List.append_assoc] at *
  rw [← List.append_assoc] at this
  simpa [genKey] using this

theorem DeriveKey_sealedBlob (g : KeyGenerator) (pass2 pass m : List Nat)
    (rhoSalt rhoNonce : Nat → Nat) (hp : pass2 ≠ []) :
    g.DeriveKey pass2 (sealedBlob g pass m rhoSalt rhoNonce) =
      .ok (genKey g pass2 rhoSalt) := by
  rw [KeyGenerator.DeriveKey, DeriveKeySalt_sealedBlob g pass2 pass m _ _ hp]
  rfl

/-- The primitive `Lock` on a valid key size produces the blob
`nonce ++ Seal(m) ++ salt`. -/
theorem Lock_prim_ok (key salt m : List Nat) (rhoNonce : Nat → Nat)
    (hk : aesKeyLenOk key.length = true) :
    Passlock.Lock key salt m rhoNonce =
      .ok (draw nonceSize rhoNonce ++
            gcmSeal key (draw nonceSize rhoNonce) m ++ salt) := by
  simp [Passlock.Lock, hk]

/-! ### Behaviour of the MultiLocker state machine -/

theorem validateForUpdate_ok (l : MultiLocker) (g : KeyGenerator)
    (hpay : l.payload ≠ []) (hgen : l.keyGen = some g) (hbp : l.basePass ≠ []) :
    l.validateForUpdate = .ok g := by
  simp [MultiLocker.validateForUpdate, MultiLocker.validateInitialized,
    MultiLocker.validateHasGenerator, hgen, List.length_eq_zero, hpay, hbp]

theorem validateForUpdate_disabled (l : MultiLocker) (g : KeyGenerator)
    (hpay : l.payload ≠ []) (hgen : l.keyGen = some g) (hbp : l.basePass = []) :
    l.validateForUpdate = .error .updateDisabled := by
  simp [MultiLocker.validateForUpdate, MultiLocker.validateInitialized,
    MultiLocker.validateHasGenerator, hgen, List.length_eq_zero, hpay, hbp]

/-- A first `Lock` (no payload, no surrogate keys) succeeds and stores the
freshly sealed payload together with the cached base passphrase. -/
theorem MultiLocker_Lock_fresh (l : MultiLocker) (g : KeyGenerator)
    (basePass m : List Nat) (rhoSalt rhoNonce : Nat → Nat)
    (hgen : l.keyGen = some g) (hsur : l.surKeys = []) (hpay : l.payload = [])
    (hp : basePass ≠ []) (hA : aesKeyLenOk g.aesKeySize = true) :
    l.Lock basePass m rhoSalt rhoNonce =
      .ok { l with payload := sealedBlob g basePass m rhoSalt rhoNonce,
                   basePass := basePass } := by
  have hk : aesKeyLenOk (genKey g basePass rhoSalt).length = true := by
    rw [genKey_length]; exact hA
  simp [MultiLocker.Lock, MultiLocker.validateHasGenerator, hgen, hsur, hpay,
    GenerateKey_ok g basePass rhoSalt hp, Lock_prim_ok _ _ _ _ hk,
    sealedBlob, genSalt]

/-- A re-lock whose passphrase check succeeds replaces the payload with a
freshly sealed one (fresh key and salt) and caches the passphrase. -/
theorem MultiLocker_Lock_relock (l : MultiLocker) (g : KeyGenerator)
    (basePass m k0 s0 p0 : List Nat) (rhoSalt rhoNonce : Nat → Nat)
    (hgen : l.keyGen = some g) (hpay : l.payload ≠ [])
    (hd : g.DeriveKeySalt basePass l.payload = .ok (k0, s0))
    (ho : Passlock.Unlock k0 l.payload = .ok p0)
    (hp : basePass ≠ []) (hA : aesKeyLenOk g.aesKeySize = true) :
    l.Lock basePass m rhoSalt rhoNonce =
      .ok { l with payload := sealedBlob g basePass m rhoSalt rhoNonce,
                   basePass := basePass } := by
  have hk : aesKeyLenOk (genKey g basePass rhoSalt).length = true := by
    rw [genKey_length]; exact hA
  have hpos : 0 < l.payload.length := List.length_pos.mpr hpay
  simp [MultiLocker.Lock, MultiLocker.validateHasGenerator, hgen, hpos, hd, ho,
    GenerateKey_ok g basePass rhoSalt hp, Lock_prim_ok _ _ _ _ hk,
    sealedBlob, genSalt]

theorem EnableUpdate_ok (l : MultiLocker) (g : KeyGenerator)
    (pass k p : List Nat) (hpay : l.payload ≠ []) (hgen : l.keyGen = some g)
    (hd : g.DeriveKey pass l.payload = .ok k)
    (ho : Passlock.Unlock k l.payload = .ok p) :
    l.EnableUpdate pass = .ok { l with basePass := pass } := by
  simp [MultiLocker.EnableUpdate, MultiLocker.validateInitialized,
    MultiLocker.validateHasGenerator, hgen, List.length_eq_zero, hpay, hd, ho]

theorem AddSurrogatePass_ok (l : MultiLocker) (g : KeyGenerator) (id : String)
    (pass : List Nat) (rhoSalt rhoNonce : Nat → Nat)
    (hlen1 : id.utf8ByteSize ≤ idFieldLen) (hlen2 : id.utf8ByteSize ≠ 0)
    (hnew : l.surKeys.lookup id = none)
    (hval : l.validateForUpdate = .ok g)
    (hp : pass ≠ []) (hA : aesKeyLenOk g.aesKeySize = true) :
    l.AddSurrogatePass id pass rhoSalt rhoNonce =
      .ok { l with surKeys :=
              l.surKeys ++ [(id, sealedBlob g pass l.basePass rhoSalt rhoNonce)] } := by
  have hk : aesKeyLenOk (genKey g pass rhoSalt).length = true := by
    rw [genKey_length]; exact hA
  have hnl : ¬ idFieldLen < id.utf8ByteSize := Nat.not_lt.mpr hlen1
  simp [MultiLocker.AddSurrogatePass, hnl, hlen2, hnew, hval,
    GenerateKey_ok g pass rhoSalt hp, Lock_prim_ok _ _ _ _ hk,
    sealedBlob, genSalt]

theorem AddSurrogatePass_gate (l : MultiLocker) (id : String)
    (pass : List Nat) (rhoSalt rhoNonce : Nat → Nat) (e : PLErr)
    (hlen1 : id.utf8ByteSize ≤ idFieldLen) (hlen2 : id.utf8ByteSize ≠ 0)
    (hnew : l.surKeys.lookup id = none)
    (hval : l.validateForUpdate = .error e) :
    l.AddSurrogatePass id pass rhoSalt rhoNonce = .error e := by
  have hnl : ¬ idFieldLen < id.utf8ByteSize := Nat.not_lt.mpr hlen1
  simp [MultiLocker.AddSurrogatePass, hnl, hlen2, hnew, hval]

theorem RemoveSurrogatePass_ok (l : MultiLocker) (g : KeyGenerator)
    (id : String) (hval : l.validateForUpdate = .ok g) :
    ∃ l2, l.RemoveSurrogatePass id = .ok l2 := by
  rw [MultiLocker.RemoveSurrogatePass, hval]
  by_cases h : (l.surKeys.lookup id).isNone <;> simp [h]

theorem RemoveSurrogatePass_gate (l : MultiLocker) (id : String) (e : PLErr)
    (hval : l.validateForUpdate = .error e) :
    l.RemoveSurrogatePass id = .error e := by
  rw [MultiLocker.RemoveSurrogatePass, hval]

theorem UpdateSurrogatePass_ok (l : MultiLocker) (g : KeyGenerator)
    (id : String) (newPass entry : List Nat) (rhoSalt rhoNonce : Nat → Nat)
    (hlen : id.utf8ByteSize ≤ idFieldLen)
    (hfound : l.surKeys.lookup id = some entry)
    (hval : l.validateForUpdate = .ok g)
    (hp : newPass ≠ []) (hA : aesKeyLenOk g.aesKeySize = true) :
    l.UpdateSurrogatePass id newPass rhoSalt rhoNonce = .ok l := by
  have hk : aesKeyLenOk (genKey g newPass rhoSalt).length = true := by
    rw [genKey_length]; exact hA
  have hnl : ¬ idFieldLen < id.utf8ByteSize := Nat.not_lt.mpr hlen
  simp [MultiLocker.UpdateSurrogatePass, hnl, hfound, hval,
    GenerateKey_ok g newPass rhoSalt hp, Lock_prim_ok _ _ _ _ hk]

theorem UpdateSurrogatePass_gate (l : MultiLocker) (id : String)
    (newPass entry : List Nat) (rhoSalt rhoNonce : Nat → Nat) (e : PLErr)
    (hlen : id.utf8ByteSize ≤ idFieldLen)
    (hfound : l.surKeys.lookup id = some entry)
    (hval : l.validateForUpdate = .error e) :
    l.UpdateSurrogatePass id newPass rhoSalt rhoNonce = .error e := by
  have hnl : ¬ idFieldLen < id.utf8ByteSize := Nat.not_lt.mpr hlen
  simp [MultiLocker.UpdateSurrogatePass, hnl, hfound, hval]

theorem InvalidateLock_ok (l : MultiLocker) (g : KeyGenerator)
    (pass m : List Nat) (rhoSalt rhoNonce : Nat → Nat)
    (hgen : l.keyGen = some g) (hp : pass ≠ [])
    (hA : aesKeyLenOk g.aesKeySize = true) :
    l.InvalidateLock pass m rhoSalt rhoNonce =
      .ok { l with payload := sealedBlob g pass m rhoSalt rhoNonce,
                   surKeys := [] } := by
  have hk : aesKeyLenOk (genKey g pass rhoSalt).length = true := by
    rw [genKey_length]; exact hA
  simp [MultiLocker.InvalidateLock, MultiLocker.validateHasGenerator, hgen,
    GenerateKey_ok g pass rhoSalt hp, Lock_prim_ok _ _ _ _ hk,
    sealedBlob, genSalt]

theorem SurrogateUnlock_notFound (l : MultiLocker) (g : KeyGenerator)
    (id : String) (pass : List Nat)
    (hpay : l.payload ≠ []) (hgen : l.keyGen = some g)
    (hnone : l.surKeys.lookup id = none) :
    l.SurrogateUnlock id pass = .error .idNotFound := by
  simp [MultiLocker.SurrogateUnlock, MultiLocker.validateInitialized,
    MultiLocker.validateHasGenerator, hgen, List.length_eq_zero, hpay, hnone]

/-- A surrogate unlock succeeds and recovers the payload's plaintext when
the surrogate entry wraps the base passphrase that the current payload was
sealed under. -/
theorem SurrogateUnlock_ok (l : MultiLocker) (g : KeyGenerator) (id : String)
    (base m surPass : List Nat) (r1 r2 r3 r4 : Nat → Nat)
    (hgen : l.keyGen = some g)
    (hpay : l.payload = sealedBlob g base m r1 r2)
    (hfound : l.surKeys.lookup id = some (sealedBlob g surPass base r3 r4))
    (hbase : base ≠ []) (hsp : surPass ≠ [])
    (hA : aesKeyLenOk g.aesKeySize = true) :
    l.SurrogateUnlock id surPass = .ok m := by
  have hsne : sealedBlob g base m r1 r2 ≠ [] := sealedBlob_ne_nil g base m r1 r2
  simp [MultiLocker.SurrogateUnlock, MultiLocker.validateInitialized,
    MultiLocker.validateHasGenerator, hgen, List.length_eq_zero, hsne, hfound,
    hpay, DeriveKey_sealedBlob g surPass surPass base r3 r4 hsp,
    Unlock_sealedBlob g surPass base r3 r4 hA,
    DeriveKey_sealedBlob g base base m r1 r2 hbase,
    Unlock_sealedBlob g base m r1 r2 hA]

/-! ### Concrete fixtures used by witnesses and counterexamples -/

/-- Generator with the short-delay profile, as the repository's tests use. -/
def stdGen : KeyGenerator :=
  { iterations := DefaultInteractiveIterations
    relativeBlockSize := DefaultRelBlockSize
    cpuCost := DefaultCpuCost
    aesKeySize := AES256KeySize }

/-- A family of concrete entropy sources for the random draws. -/
def ent (k : Nat) : Nat → Nat := fun i => k * 7 + i

/-! ### Claim theorems -/

/-- C4: after `Lock(base, m)` and then `AddSurrogatePass(id, surPass)` (update
mode holds because `Lock` cached the base passphrase), `SurrogateUnlock(id,
surPass)` returns `m`, for every base passphrase, plaintext, valid surrogate
id and surrogate passphrase, and all random draws. -/
theorem surrogate_roundTrip (g : KeyGenerator) (base m surPass : List Nat)
    (id : String) (r1 r2 r3 r4 : Nat → Nat)
    (hbase : base ≠ []) (hsp : surPass ≠ [])
    (hA : aesKeyLenOk g.aesKeySize = true)
    (hid1 : id.utf8ByteSize ≠ 0) (hid2 : id.utf8ByteSize ≤ idFieldLen) :
    ∃ l1 l2,
      (NewMultiLocker g).Lock base m r1 r2 = .ok l1 ∧
      l1.AddSurrogatePass id surPass r3 r4 = .ok l2 ∧
      l2.SurrogateUnlock id surPass = .ok m := by
  refine ⟨⟨[], sealedBlob g base m r1 r2, base, some g⟩,
          ⟨[(id, sealedBlob g surPass base r3 r4)], sealedBlob g base m r1 r2,
            base, some g⟩, ?_, ?_, ?_⟩
  · exact MultiLocker_Lock_fresh (NewMultiLocker g) g base m r1 r2 rfl rfl rfl
      hbase hA
  · refine AddSurrogatePass_ok _ g id surPass r3 r4 hid2 hid1 (by simp) ?_ hsp hA
    exact validateForUpdate_ok _ g (sealedBlob_ne_nil g base m r1 r2) rfl hbase
  · refine SurrogateUnlock_ok _ g id base m surPass r1 r2 r3 r4 rfl rfl ?_
      hbase hsp hA
    simp

/-- C4 witness: the surrogate round trip at a concrete generator, concrete
passphrases and entropies. -/
theorem surrogate_roundTrip_witness :
    ∃ l1 l2,
      (NewMultiLocker stdGen).Lock [1, 2] [9, 9, 9] (ent 0) (ent 1) = .ok l1 ∧
      l1.AddSurrogatePass "dev" [5, 5] (ent 2) (ent 3) = .ok l2 ∧
      l2.SurrogateUnlock "dev" [5, 5] = .ok [9, 9, 9] :=
  surrogate_roundTrip stdGen [1, 2] [9, 9, 9] [5, 5] "dev"
    (ent 0) (ent 1) (ent 2) (ent 3)
    (by decide) (by decide) (by decide) (by decide) (by decide)

/-- C2: after `Lock(base, m)`, `EnableUpdate(base)`, `AddSurrogatePass(id,
surPass)` and a successful re-lock `Lock(base, m2)` with the same base
passphrase, `SurrogateUnlock(id, surPass)` returns `m2`: re-locking does not
invalidate existing surrogate keys, because they wrap the passphrase and the
base key is re-derived from the new payload's own salt at unlock time. -/
theorem relock_preserves_surrogates (g : KeyGenerator)
    (base m m2 surPass : List Nat) (id : String)
    (r1 r2 r3 r4 r5 r6 : Nat → Nat)
    (hbase : base ≠ []) (hsp : surPass ≠ [])
    (hA : aesKeyLenOk g.aesKeySize = true)
    (hid1 : id.utf8ByteSize ≠ 0) (hid2 : id.utf8ByteSize ≤ idFieldLen) :
    ∃ l1 l2 l3 l4,
      (NewMultiLocker g).Lock base m r1 r2 = .ok l1 ∧
      l1.EnableUpdate base = .ok l2 ∧
      l2.AddSurrogatePass id surPass r3 r4 = .ok l3 ∧
      l3.Lock base m2 r5 r6 = .ok l4 ∧
      l4.SurrogateUnlock id surPass = .ok m2 := by
  refine ⟨⟨[], sealedBlob g base m r1 r2, base, some g⟩,
          ⟨[], sealedBlob g base m r1 r2, base, some g⟩,
          ⟨[(id, sealedBlob g surPass base r3 r4)],
            sealedBlob g base m r1 r2, base, some g⟩,
          ⟨[(id, sealedBlob g surPass base r3 r4)],
            sealedBlob g base m2 r5 r6, base, some g⟩, ?_, ?_, ?_, ?_, ?_⟩
  · exact MultiLocker_Lock_fresh (NewMultiLocker g) g base m r1 r2 rfl rfl rfl
      hbase hA
  · exact EnableUpdate_ok _ g base (genKey g base r1) m
      (sealedBlob_ne_nil g base m r1 r2) rfl
      (DeriveKey_sealedBlob g base base m r1 r2 hbase)
      (Unlock_sealedBlob g base m r1 r2 hA)
  · refine AddSurrogatePass_ok _ g id surPass r3 r4 hid2 hid1 (by simp) ?_ hsp hA
    exact validateForUpdate_ok _ g (sealedBlob_ne_nil g base m r1 r2) rfl hbase
  · exact MultiLocker_Lock_relock _ g base m2 (genKey g base r1)
      (genSalt g r1) m r5 r6 rfl (sealedBlob_ne_nil g base m r1 r2)
      (DeriveKeySalt_sealedBlob g base base m r1 r2 hbase)
      (Unlock_sealedBlob g base m r1 r2 hA) hbase hA
  · refine SurrogateUnlock_ok _ g id base m2 surPass r5 r6 r3 r4 rfl rfl ?_
      hbase hsp hA
    simp

/-- C2 witness: the re-lock-preserves-surrogates chain at a concrete
generator, concrete passphrases and entropies. -/
theorem relock_preserves_surrogates_witness :
    ∃ l1 l2 l3 l4,
      (NewMultiLocker stdGen).Lock [1, 2] [9, 9, 9] (ent 0) (ent 1) = .ok l1 ∧
      l1.EnableUpdate [1, 2] = .ok l2 ∧
      l2.AddSurrogatePass "dev" [5, 5] (ent 2) (ent 3) = .ok l3 ∧
      l3.Lock [1, 2] [8, 8] (ent 4) (ent 5) = .ok l4 ∧
      l4.SurrogateUnlock "dev" [5, 5] = .ok [8, 8] :=
  relock_preserves_surrogates stdGen [1, 2] [9, 9, 9] [8, 8] [5, 5] "dev"
    (ent 0) (ent 1) (ent 2) (ent 3) (ent 4) (ent 5)
    (by decide) (by decide) (by decide) (by decide) (by decide)

/-- Concrete locker after a first `Lock` with passphrase `[1, 2]` and
plaintext `[9, 9, 9]`. -/
def c3L1 : MultiLocker :=
  match (NewMultiLocker stdGen).Lock [1, 2] [9, 9, 9] (ent 0) (ent 1) with
  | .ok l => l
  | .error _ => NewMultiLocker stdGen

/-- Probe for the salt across a successful re-lock with the same
passphrase: compares the trailing salt bytes of the payload before and
after. -/
def c3Probe : Except PLErr Bool :=
  (c3L1.Lock [1, 2] [8, 8] (ent 4) (ent 5)).map fun l2 =>
    decide (trailingBytes stdGen.aesKeySize l2.payload
      = trailingBytes stdGen.aesKeySize c3L1.payload)

set_option maxRecDepth 100000 in
/-- C3 counterexample: a successful re-lock with the same base passphrase
produces a payload whose trailing salt bytes DIFFER from the previous
payload's — the claim that the trailing salt bytes are unchanged across a
re-lock is false on the code, which calls `GenerateKey` (fresh random salt)
for the seal and uses `DeriveKeySalt`'s same-salt key only to verify. -/
theorem relock_salt_preserved_cex : c3Probe = .ok false := by decide

/-- C3 amended: a successful re-lock verifies the passphrase against the
existing payload via the key `DeriveKeySalt` re-derives from the payload's
embedded salt, but seals the new plaintext under a FRESHLY generated
key+salt; the stored payload's trailing salt bytes afterwards are the fresh
random draw, not the old salt. -/
theorem relock_uses_fresh_salt (l : MultiLocker) (g : KeyGenerator)
    (base m2 k0 s0 p0 : List Nat) (rhoSalt rhoNonce : Nat → Nat)
    (hgen : l.keyGen = some g) (hpay : l.payload ≠ [])
    (hd : g.DeriveKeySalt base l.payload = .ok (k0, s0))
    (ho : Passlock.Unlock k0 l.payload = .ok p0)
    (hp : base ≠ []) (hA : aesKeyLenOk g.aesKeySize = true) :
    ∃ l2, l.Lock base m2 rhoSalt rhoNonce = .ok l2 ∧
      l2.payload = sealedBlob g base m2 rhoSalt rhoNonce ∧
      trailingBytes g.aesKeySize l2.payload = genSalt g rhoSalt := by
  refine ⟨_, MultiLocker_Lock_relock l g base m2 k0 s0 p0 rhoSalt rhoNonce
    hgen hpay hd ho hp hA, rfl, ?_⟩
  exact sealedBlob_trailing g base m2 rhoSalt rhoNonce

set_option maxRecDepth 100000 in
/-- C3 amended witness: the fresh-salt re-lock at the concrete locker. -/
theorem relock_uses_fresh_salt_witness :
    ∃ l2, c3L1.Lock [1, 2] [8, 8] (ent 4) (ent 5) = .ok l2 ∧
      l2.payload = sealedBlob stdGen [1, 2] [8, 8] (ent 4) (ent 5) ∧
      trailingBytes stdGen.aesKeySize l2.payload = genSalt stdGen (ent 4) :=
  relock_uses_fresh_salt c3L1 stdGen [1, 2] [8, 8]
    (genKey stdGen [1, 2] (ent 0)) (genSalt stdGen (ent 0)) [9, 9, 9]
    (ent 4) (ent 5) (by decide) (by decide) (by decide) (by decide)
    (by decide) (by decide)

/-- C5: on a locker with a payload set, `Lock(wrongBase, m2)` with a
passphrase whose derived key fails to open the current payload (with a
returned error, not a panic) returns `ErrInvalidPassword`.  All field
assignments in the Go method come after this error return, which the
functional embedding renders by producing no successor state: the payload
and surrogate table are exactly unchanged on failure. -/
theorem relock_wrongBase_fails (l : MultiLocker) (g : KeyGenerator)
    (wrongBase m2 k0 s0 : List Nat) (e : PLErr) (rhoSalt rhoNonce : Nat → Nat)
    (hgen : l.keyGen = some g) (hpay : l.payload ≠ [])
    (hd : g.DeriveKeySalt wrongBase l.payload = .ok (k0, s0))
    (ho : Passlock.Unlock k0 l.payload = .error e)
    (hnp : e ≠ .sliceOutOfRange) :
    l.Lock wrongBase m2 rhoSalt rhoNonce = .error .invalidPassword := by
  have hpos : 0 < l.payload.length := List.length_pos.mpr hpay
  cases e <;> simp_all [MultiLocker.Lock, MultiLocker.validateHasGenerator,
    hgen, hpos, hd, ho]

set_option maxRecDepth 100000 in
/-- C5 witness: the wrong-passphrase re-lock failure at the concrete
locker, with `[3, 3]` in place of the base passphrase `[1, 2]`. -/
theorem relock_wrongBase_fails_witness :
    c3L1.Lock [3, 3] [8, 8] (ent 4) (ent 5) = .error .invalidPassword :=
  relock_wrongBase_fails c3L1 stdGen [3, 3] [8, 8]
    (genKey stdGen [3, 3] (ent 0)) (genSalt stdGen (ent 0)) .authFailed
    (ent 4) (ent 5) (by decide) (by decide) (by decide) (by decide)
    (by decide)

/-- C7: a successful `InvalidateLock` replaces the payload with a fresh
encryption under a brand-new key and salt (the fresh random draw, with no
reference to the existing payload's salt) and removes every surrogate key:
afterwards `ListKeyIDs` is empty and every surrogate unlock fails with the
id-not-found error. -/
theorem invalidate_revokes_all (l : MultiLocker) (g : KeyGenerator)
    (pass m : List Nat) (rhoSalt rhoNonce : Nat → Nat)
    (hgen : l.keyGen = some g) (hp : pass ≠ [])
    (hA : aesKeyLenOk g.aesKeySize = true) :
    ∃ l2, l.InvalidateLock pass m rhoSalt rhoNonce = .ok l2 ∧
      l2.payload = sealedBlob g pass m rhoSalt rhoNonce ∧
      l2.surKeys = [] ∧ l2.ListKeyIDs = [] ∧
      ∀ id p2, l2.SurrogateUnlock id p2 = .error .idNotFound := by
  refine ⟨_, InvalidateLock_ok l g pass m rhoSalt rhoNonce hgen hp hA,
    rfl, rfl, by simp [MultiLocker.ListKeyIDs], ?_⟩
  intro id p2
  refine SurrogateUnlock_notFound _ g id p2 ?_ hgen (by simp)
  exact sealedBlob_ne_nil g pass m rhoSalt rhoNonce

/-- Concrete locker with payload and one surrogate key, update enabled. -/
def c7Setup : MultiLocker :=
  match ((NewMultiLocker stdGen).Lock [1, 2] [9, 9, 9] (ent 0) (ent 1)).bind
      (fun l1 => l1.AddSurrogatePass "dev" [5, 5] (ent 2) (ent 3)) with
  | .ok l => l
  | .error _ => NewMultiLocker stdGen

set_option maxRecDepth 100000 in
/-- C7 witness: invalidating the concrete locker that holds the surrogate
key `dev`. -/
theorem invalidate_revokes_all_witness :
    ∃ l2, c7Setup.InvalidateLock [1, 2] [7, 7] (ent 8) (ent 9) = .ok l2 ∧
      l2.payload = sealedBlob stdGen [1, 2] [7, 7] (ent 8) (ent 9) ∧
      l2.surKeys = [] ∧ l2.ListKeyIDs = [] ∧
      ∀ id p2, l2.SurrogateUnlock id p2 = .error .idNotFound :=
  invalidate_revokes_all c7Setup stdGen [1, 2] [7, 7] (ent 8) (ent 9)
    (by decide) (by decide) (by decide)

/-- C8: with update not enabled (no cached base passphrase),
`AddSurrogatePass`, `RemoveSurrogatePass` and `UpdateSurrogatePass` all fail
with the update-disabled state error (the functional embedding returns only
the error: nothing is mutated); after a successful `EnableUpdate(base)` the
same three operations succeed. -/
theorem update_gating (l : MultiLocker) (g : KeyGenerator)
    (base k0 p0 : List Nat) (id1 : String) (pass1 : List Nat)
    (id2 : String) (entry2 newPass : List Nat) (ra rb rc rd : Nat → Nat)
    (hgen : l.keyGen = some g) (hpay : l.payload ≠ []) (hbp : l.basePass = [])
    (hd : g.DeriveKey base l.payload = .ok k0)
    (ho : Passlock.Unlock k0 l.payload = .ok p0)
    (hbase : base ≠ [])
    (hid11 : id1.utf8ByteSize ≠ 0) (hid12 : id1.utf8ByteSize ≤ idFieldLen)
    (hfresh : l.surKeys.lookup id1 = none) (hp1 : pass1 ≠ [])
    (hid22 : id2.utf8ByteSize ≤ idFieldLen)
    (hfound : l.surKeys.lookup id2 = some entry2)
    (hnp : newPass ≠ []) (hA : aesKeyLenOk g.aesKeySize = true) :
    l.AddSurrogatePass id1 pass1 ra rb = .error .updateDisabled ∧
    l.RemoveSurrogatePass id2 = .error .updateDisabled ∧
    l.UpdateSurrogatePass id2 newPass rc rd = .error .updateDisabled ∧
    l.EnableUpdate base = .ok { l with basePass := base } ∧
    (∃ la, MultiLocker.AddSurrogatePass { l with basePass := base }
      id1 pass1 ra rb = .ok la) ∧
    (∃ lr, MultiLocker.RemoveSurrogatePass { l with basePass := base }
      id2 = .ok lr) ∧
    MultiLocker.UpdateSurrogatePass { l with basePass := base }
      id2 newPass rc rd = .ok { l with basePass := base } := by
  have hdis := validateForUpdate_disabled l g hpay hgen hbp
  have hok : MultiLocker.validateForUpdate { l with basePass := base }
      = .ok g := validateForUpdate_ok _ g hpay hgen hbase
  refine ⟨AddSurrogatePass_gate l id1 pass1 ra rb _ hid12 hid11 hfresh hdis,
    RemoveSurrogatePass_gate l id2 _ hdis,
    UpdateSurrogatePass_gate l id2 newPass entry2 rc rd _ hid22 hfound hdis,
    EnableUpdate_ok l g base k0 p0 hpay hgen hd ho,
    ⟨_, AddSurrogatePass_ok _ g id1 pass1 ra rb hid12 hid11 hfresh hok hp1 hA⟩,
    RemoveSurrogatePass_ok _ g id2 hok,
    UpdateSurrogatePass_ok _ g id2 newPass entry2 rc rd hid22 hfound hok
      hnp hA⟩

/-- Concrete locker with payload and one surrogate key where update mode is
disabled again (`DisableUpdate` after the setup). -/
def c8Setup : MultiLocker :=
  match ((NewMultiLocker stdGen).Lock [1, 2] [9, 9, 9] (ent 0) (ent 1)).bind
      (fun l1 => l1.AddSurrogatePass "dev" [5, 5] (ent 2) (ent 3)) with
  | .ok l => l.DisableUpdate
  | .error _ => NewMultiLocker stdGen

set_option maxRecDepth 100000 in
/-- C8 witness: the gating behaviour at the concrete update-disabled
locker, adding the fresh id `x`, removing and updating the existing id
`dev`, before and after `EnableUpdate`. -/
theorem update_gating_witness :
    c8Setup.AddSurrogatePass "x" [4] (ent 10) (ent 11)
      = .error .updateDisabled ∧
    c8Setup.RemoveSurrogatePass "dev" = .error .updateDisabled ∧
    c8Setup.UpdateSurrogatePass "dev" [6, 6] (ent 12) (ent 13)
      = .error .updateDisabled ∧
    c8Setup.EnableUpdate [1, 2] = .ok { c8Setup with basePass := [1, 2] } ∧
    (∃ la, MultiLocker.AddSurrogatePass { c8Setup with basePass := [1, 2] }
      "x" [4] (ent 10) (ent 11) = .ok la) ∧
    (∃ lr, MultiLocker.RemoveSurrogatePass { c8Setup with basePass := [1, 2] }
      "dev" = .ok lr) ∧
    MultiLocker.UpdateSurrogatePass { c8Setup with basePass := [1, 2] }
      "dev" [6, 6] (ent 12) (ent 13)
      = .ok { c8Setup with basePass := [1, 2] } :=
  update_gating c8Setup stdGen [1, 2] (genKey stdGen [1, 2] (ent 0)) [9, 9, 9]
    "x" [4] "dev" (sealedBlob stdGen [5, 5] [1, 2] (ent 2) (ent 3)) [6, 6]
    (ent 10) (ent 11) (ent 12) (ent 13)
    (by decide) (by decide) (by decide) (by decide) (by decide) (by decide)
    (by decide) (by decide) (by decide) (by decide) (by decide) (by decide)
    (by decide) (by decide)

/-- C10: every successful `MultiLocker.Lock` (first lock or re-lock) caches
the supplied base passphrase, so update mode is enabled and the
surrogate-mutating operations (`AddSurrogatePass`, `RemoveSurrogatePass`,
`UpdateSurrogatePass`) succeed on the resulting locker without any prior
call to `EnableUpdate`. -/
theorem lock_caches_basePass (l : MultiLocker) (base m : List Nat)
    (rhoSalt rhoNonce : Nat → Nat) (l2 : MultiLocker)
    (h : l.Lock base m rhoSalt rhoNonce = .ok l2) :
    l2.basePass = base ∧ base ≠ [] ∧
    (∃ g, l.keyGen = some g ∧ l2.keyGen = some g ∧
      aesKeyLenOk g.aesKeySize = true ∧
      l2.payload = sealedBlob g base m rhoSalt rhoNonce ∧
      l2.validateForUpdate = .ok g) ∧
    (∀ (id : String) (pass : List Nat) (ra rb : Nat → Nat),
      id.utf8ByteSize ≠ 0 → id.utf8ByteSize ≤ idFieldLen →
      l2.surKeys.lookup id = none → pass ≠ [] →
      ∃ la, l2.AddSurrogatePass id pass ra rb = .ok la) ∧
    (∀ id : String, ∃ lr, l2.RemoveSurrogatePass id = .ok lr) ∧
    (∀ (id : String) (entry newPass : List Nat) (rc rd : Nat → Nat),
      id.utf8ByteSize ≤ idFieldLen → l2.surKeys.lookup id = some entry →
      newPass ≠ [] → l2.UpdateSurrogatePass id newPass rc rd = .ok l2) := by
  unfold MultiLocker.Lock MultiLocker.validateHasGenerator at h
  cases hg : l.keyGen with
  | none => rw [hg] at h; exact absurd h (by simp)
  | some g =>
    rw [hg] at h
    simp only [] at h
    split at h
    · exact absurd h (by simp)
    case _ u heqCheck =>
      split at h
      · exact absurd h (by simp)
      case _ key salt heqGen =>
        split at h
        · exact absurd h (by simp)
        case _ enc heqLock =>
          rw [KeyGenerator.GenerateKey] at heqGen
          split at heqGen
          · exact absurd heqGen (by simp)
          case _ hne =>
            rw [Passlock.Lock] at heqLock
            split at heqLock
            case _ hkeyOk =>
              injection heqGen with heqGen
              injection heqGen with hkey hsalt
              subst hkey
              subst hsalt
              injection heqLock with heqLock
              injection h with h
              have hbase : base ≠ [] := by
                intro hb
                exact hne (by simp [hb])
              have hA : aesKeyLenOk g.aesKeySize = true := by
                rw [← scryptKey_length base (draw g.aesKeySize rhoSalt)
                  g.iterations g.relativeBlockSize g.cpuCost g.aesKeySize]
                exact hkeyOk
              have hpayload : l2.payload = sealedBlob g base m rhoSalt rhoNonce := by
                rw [← h]
                exact heqLock.symm
              have hbp : l2.basePass = base := by rw [← h]
              have hkg : l2.keyGen = some g := by rw [← h]
              have hpne : l2.payload ≠ [] := by
                rw [hpayload]
                exact sealedBlob_ne_nil g base m rhoSalt rhoNonce
              have hbpne : l2.basePass ≠ [] := by rw [hbp]; exact hbase
              have hval : l2.validateForUpdate = .ok g :=
                validateForUpdate_ok l2 g hpne hkg hbpne
              refine ⟨hbp, hbase, ⟨g, rfl, hkg, hA, hpayload, hval⟩, ?_, ?_, ?_⟩
              · intro id pass ra rb h1 h2 h3 h4
                exact ⟨_, AddSurrogatePass_ok l2 g id pass ra rb h2 h1 h3
                  hval h4 hA⟩
              · intro id
                exact RemoveSurrogatePass_ok l2 g id hval
              · intro id entry newPass rc rd h1 h2 h3
                exact UpdateSurrogatePass_ok l2 g id newPass entry rc rd h1 h2
                  hval h3 hA
            case _ =>
              exact absurd heqLock (by simp)

/-- Concrete result of a successful first `Lock`, used to witness C10. -/
def c10Locker : MultiLocker :=
  match (NewMultiLocker stdGen).Lock [1, 2] [9, 9, 9] (ent 0) (ent 1) with
  | .ok l => l
  | .error _ => NewMultiLocker stdGen

set_option maxRecDepth 100000 in
/-- C10 witness: the concrete first lock caches `[1, 2]`, enables update
and lets the surrogate-mutating operations succeed without `EnableUpdate`. -/
theorem lock_caches_basePass_witness :
    c10Locker.basePass = [1, 2] ∧ ([1, 2] : List Nat) ≠ [] ∧
    (∃ g, (NewMultiLocker stdGen).keyGen = some g ∧
      c10Locker.keyGen = some g ∧
      aesKeyLenOk g.aesKeySize = true ∧
      c10Locker.payload = sealedBlob g [1, 2] [9, 9, 9] (ent 0) (ent 1) ∧
      c10Locker.validateForUpdate = .ok g) ∧
    (∀ (id : String) (pass : List Nat) (ra rb : Nat → Nat),
      id.utf8ByteSize ≠ 0 → id.utf8ByteSize ≤ idFieldLen →
      c10Locker.surKeys.lookup id = none → pass ≠ [] →
      ∃ la, c10Locker.AddSurrogatePass id pass ra rb = .ok la) ∧
    (∀ id : String, ∃ lr, c10Locker.RemoveSurrogatePass id = .ok lr) ∧
    (∀ (id : String) (entry newPass : List Nat) (rc rd : Nat → Nat),
      id.utf8ByteSize ≤ idFieldLen →
      c10Locker.surKeys.lookup id = some entry →
      newPass ≠ [] →
      c10Locker.UpdateSurrogatePass id newPass rc rd = .ok c10Locker) :=
  lock_caches_basePass (NewMultiLocker stdGen) [1, 2] [9, 9, 9]
    (ent 0) (ent 1) c10Locker (by decide)

/-- Concrete locker with payload and surrogate key `dev` wrapping the base
passphrase under `[5, 5]`, used to exhibit the `UpdateSurrogatePass` bug. -/
def c1Setup : Except PLErr MultiLocker :=
  ((NewMultiLocker stdGen).Lock [1, 2] [9, 9, 9] (ent 0) (ent 1)).bind fun l1 =>
    l1.AddSurrogatePass "dev" [5, 5] (ent 2) (ent 3)

set_option maxRecDepth 1000000 in
/-- C1 (code bug): `UpdateSurrogatePass("dev", [6, 6])` returns success but
leaves the locker COMPLETELY unchanged — the Go method assigns the
re-wrapped passphrase to `sur`, a copy of the map value, and never writes it
back to `l.surKeys[id]`.  Consequently `SurrogateUnlock("dev", [6, 6])`
fails with `ErrInvalidPassword` afterwards (the claim says it must recover
the payload), while the OLD passphrase `[5, 5]` still unlocks. -/
theorem updateSurrogatePass_noop :
    (c1Setup.bind fun l =>
      (l.UpdateSurrogatePass "dev" [6, 6] (ent 6) (ent 7)).map fun l2 =>
        decide (l2 = l)) = .ok true ∧
    (c1Setup.bind fun l =>
      (l.UpdateSurrogatePass "dev" [6, 6] (ent 6) (ent 7)).bind fun l2 =>
        l2.SurrogateUnlock "dev" [6, 6]) = .error .invalidPassword ∧
    (c1Setup.bind fun l =>
      (l.UpdateSurrogatePass "dev" [6, 6] (ent 6) (ent 7)).bind fun l2 =>
        l2.SurrogateUnlock "dev" [5, 5]) = .ok [9, 9, 9] :=
  ⟨by decide, by decide, by decide⟩

/-- C6 (code bug alongside a true half): key derivation fails cleanly with
`ErrInvalidData` whenever the buffer is no longer than the key size; but
`Unlock` given a truncated buffer (here 20 bytes with a 32-byte key, so
shorter than nonce+salt) PANICS in Go — the slice expression
`cipherText[:len(cipherText)-len(key)]` has a negative bound — instead of
returning an error as the claim requires (`sliceOutOfRange` marks that
panic in the embedding). -/
theorem truncated_input_handling :
    (∀ (g : KeyGenerator) (pass data : List Nat), pass ≠ [] →
      data.length ≤ g.aesKeySize → g.DeriveKey pass data = .error .invalidData) ∧
    Passlock.Unlock (List.replicate 32 0) (List.replicate 20 0)
      = .error .sliceOutOfRange := by
  constructor
  · intro g pass data hp hlen
    have h0 : ¬ pass.length = 0 := by
      simpa [List.length_eq_zero] using hp
    simp [KeyGenerator.DeriveKey, KeyGenerator.DeriveKeySalt, h0, hlen,
      Except.map]
  · decide

/-- C6 witness: the `ErrInvalidData` half applied at a 2-byte buffer with a
32-byte key size. -/
theorem truncated_input_handling_witness :
    stdGen.DeriveKey [1] [0, 0] = .error .invalidData :=
  truncated_input_handling.1 stdGen [1] [0, 0] (by decide) (by decide)

/-- C9 (code bug): `SetIterations` accepts 6 — greater than 1 and even but
NOT a power of two — contradicting the spec's invariant and the code's own
error message ("iterations must be a power of 2"); odd or too-small counts
are rejected, so the implemented check is exactly "greater than 1 and
even", not "power of two".  A genuine power of two such as 8 is accepted by
both the code and the spec predicate. -/
theorem setIterations_acceptsNonPowerOfTwo :
    NewKeyGenerator [SetIterations 6]
      = .ok { defaultGenerator with iterations := 6 } ∧
    specIterationsOk 6 = false ∧
    SetIterations 3 defaultGenerator = .error .badIterations ∧
    SetIterations 1 defaultGenerator = .error .badIterations ∧
    specIterationsOk 8 = true ∧
    SetIterations 8 defaultGenerator
      = .ok { defaultGenerator with iterations := 8 } :=
  ⟨by decide, by decide, by decide, by decide, by decide, by decide⟩

end Passlock
